import Mathlib

/-!
Shallow embedding of the sup-chat channel plugin (`src/index.ts`) and proofs
about its message-synchronization engine: the authenticated request client
(`makeSupRequest`), the outbound sender (`sendChatMessage` / `sendText`), and
the polling/dedup loop owned by `gateway.start` / `gateway.stop`.

Conventions of the embedding:
* JavaScript values that may be `undefined` are modelled with `Option`.
* A thrown-and-caught JavaScript exception is modelled with `Except`, the
  `.error` payload carrying the state at the moment of the throw (JS `catch`
  does not roll back mutations made before the throw).
* The `Set<string>` of seen message ids is modelled as a duplicate-free
  `List String` (insertion is guarded by a membership test exactly as in the
  source, so the list stays duplicate-free).
* Fields of the untyped JSON snapshot that the source navigates defensively
  (`data?.result?.data?.chats`, `if (chat.messages)`) are modelled with a
  three-way shape: absent (falsy, skipped), malformed (truthy but not
  iterable, so a `for … of` over it throws), or a well-formed list.
-/

namespace SupChat

/-- Channel configuration block (`SupChatConfig`, src/index.ts lines 4-11).
Optional fields are `Option`; a JS empty string is `some ""` (falsy). -/
structure SupChatConfig where
  baseUrl : String
  authSessionPath : String
  clientVersion : Option String := none
  sessionId : Option String := none
  pollInterval : Option Nat := none
  enabled : Option Bool := none
deriving Repr, DecidableEq

/-- A chat message as read from the snapshot (`SupChatMessage`,
src/index.ts lines 13-20). `mentions` may be absent. -/
structure Message where
  id : String
  chatId : String
  content : String
  senderId : String
  createdAt : String
  mentions : Option (List String) := none
deriving Repr, DecidableEq

/-- The `messages` field of a chat in the untyped snapshot: absent/falsy
(the `if (chat.messages)` guard skips it), truthy but not iterable (the
`for (const msg of chat.messages)` loop throws), or a list of messages. -/
inductive MessagesField where
  | absent
  | malformed
  | good (msgs : List Message)
deriving Repr, DecidableEq

/-- A chat record of the snapshot: `chat.id`, `chat.type`,
`chat.messages` (src/index.ts lines 228-235, 242). -/
structure Chat where
  id : String
  type : String
  messages : MessagesField
deriving Repr, DecidableEq

/-- The `data?.result?.data?.chats` field of a fetched snapshot: absent at
some level (the guard on line 227 skips processing), truthy but not
iterable (the `for (const chat of …)` loop throws), or a list of chats. -/
inductive ChatsField where
  | absent
  | malformed
  | good (chats : List Chat)
deriving Repr, DecidableEq

/-- The event object emitted by `api.emit("message", …)`
(src/index.ts lines 240-248). -/
structure SyncEvent where
  channel : String
  chatId : String
  messageId : String
  senderId : String
  text : String
  isDM : Bool
  mentions : Option (List String)
deriving Repr, DecidableEq

/-- Loop state threaded through a cycle: the `seenMessageIds` set
(src/index.ts line 217) and the log of events delivered to the sink. -/
abbrev PollState := List String × List SyncEvent

/-- Embedding of `msg.mentions?.includes(api.config.botUserId)` (src/index.ts line 236):
`undefined` mentions are falsy. -/
def hasMention (bot : String) (msg : Message) : Bool :=
  match msg.mentions with
  | none => false
  | some ms => ms.contains bot

/-- The relevance test of src/index.ts line 238:
`isDM || hasMention` with `isDM = (chat.type === "direct")`. -/
def isRelevant (bot : String) (chat : Chat) (msg : Message) : Bool :=
  (chat.type == "direct") || hasMention bot msg

/-- The event built on src/index.ts lines 240-248. -/
def mkSyncEvent (chat : Chat) (msg : Message) (isDM : Bool) : SyncEvent :=
  { channel := "sup-chat"
    chatId := chat.id
    messageId := msg.id
    senderId := msg.senderId
    text := msg.content
    isDM := isDM
    mentions := msg.mentions }

/-- Unwrap an `Except` whose both sides carry a `PollState`: the state an
observer sees after the surrounding `try … catch` has run. -/
def exState (r : Except PollState PollState) : PollState :=
  match r with
  | .ok s => s
  | .error s => s

/-- Processing of one message (src/index.ts lines 231-249): skip if the id
is already in `seenMessageIds`; otherwise add the id FIRST, then test
relevance, then emit. `sinkFails ev = true` models `api.emit` throwing on
that event: the id stays added, the event is not delivered, and the
exception propagates (`.error`). -/
def stepMsg (bot : String) (sinkFails : SyncEvent → Bool) (chat : Chat)
    (msg : Message) (s : PollState) : Except PollState PollState :=
  if msg.id ∈ s.1 then .ok s
  else
    let seen := s.1 ++ [msg.id]
    let isDM := chat.type == "direct"
    let ev := mkSyncEvent chat msg isDM
    if isDM || hasMention bot msg then
      if sinkFails ev then .error (seen, s.2)
      else .ok (seen, s.2 ++ [ev])
    else .ok (seen, s.2)

/-- Left fold that stops at the first thrown exception, carrying the state
at the throw — the behaviour of a JS `for … of` body that may throw. -/
def foldE {α : Type} (f : α → PollState → Except PollState PollState) :
    List α → PollState → Except PollState PollState
  | [], s => .ok s
  | a :: l, s =>
    match f a s with
    | .ok s' => foldE f l s'
    | .error s' => .error s'

/-- Processing of one chat (src/index.ts lines 228-253): skip when
`chat.messages` is falsy; throw when it is truthy but not iterable;
otherwise iterate the messages in order. -/
def stepChat (bot : String) (sinkFails : SyncEvent → Bool) (chat : Chat)
    (s : PollState) : Except PollState PollState :=
  match chat.messages with
  | .absent => .ok s
  | .malformed => .error s
  | .good msgs => foldE (stepMsg bot sinkFails chat) msgs s

/-- The body of `poll` before its `catch` (src/index.ts lines 221-254):
a failed fetch throws before any state is touched; an absent `chats`
field means nothing is processed; a malformed `chats` field throws at the
`for … of`; otherwise the chats are processed in order. -/
def pollBody (bot : String) (sinkFails : SyncEvent → Bool)
    (fetch : Except String ChatsField) (s : PollState) :
    Except PollState PollState :=
  match fetch with
  | .error _ => .error s
  | .ok .absent => .ok s
  | .ok .malformed => .error s
  | .ok (.good chats) => foldE (stepChat bot sinkFails) chats s

/-- One full `poll()` call (src/index.ts lines 220-258): the `catch` on
line 255 swallows any exception, keeping whatever state the body reached. -/
def pollOnce (bot : String) (sinkFails : SyncEvent → Bool)
    (fetch : Except String ChatsField) (s : PollState) : PollState :=
  exState (pollBody bot sinkFails fetch s)

/-- A sequence of poll cycles of one running loop instance, one fetch
outcome per cycle, threading `seenMessageIds` and the event log. -/
def runPolls (bot : String) (sinkFails : SyncEvent → Bool)
    (fetches : List (Except String ChatsField)) (s : PollState) : PollState :=
  fetches.foldl (fun st f => pollOnce bot sinkFails f st) s

/-- A sink that never throws (the normal regime). -/
def noFail : SyncEvent → Bool := fun _ => false

/-- Number of delivered events carrying message id `M`. -/
def countId (M : String) (evs : List SyncEvent) : Nat :=
  (evs.filter (fun e => e.messageId == M)).length

/-- Does message id `M` appear in the snapshot a fetch returned? -/
def snapshotHasId (M : String) (fetch : Except String ChatsField) : Bool :=
  match fetch with
  | .ok (.good chats) =>
    chats.any (fun c =>
      match c.messages with
      | .good msgs => msgs.any (fun m => m.id == M)
      | _ => false)
  | _ => false

/-! ### Basic lemmas about the cycle machinery -/

theorem countId_append (M : String) (evs evs' : List SyncEvent) :
    countId M (evs ++ evs') = countId M evs + countId M evs' := by
  simp [countId, List.filter_append]

theorem countId_singleton (M : String) (ev : SyncEvent) :
    countId M [ev] = if ev.messageId = M then 1 else 0 := by
  by_cases h : ev.messageId = M <;> simp [countId, List.filter_singleton, h]

theorem mkSyncEvent_messageId (chat : Chat) (msg : Message) (d : Bool) :
    (mkSyncEvent chat msg d).messageId = msg.id := rfl

/-- Case analysis for one message step: either the id was already seen and
the state is untouched, or the id is appended to the seen set and the event
log either stays or grows by exactly the event for this message. -/
theorem stepMsg_spec (bot : String) (fails : SyncEvent → Bool) (chat : Chat)
    (msg : Message) (s : PollState) :
    (msg.id ∈ s.1 ∧ exState (stepMsg bot fails chat msg s) = s) ∨
    (msg.id ∉ s.1 ∧
      (exState (stepMsg bot fails chat msg s)).1 = s.1 ++ [msg.id] ∧
      ((exState (stepMsg bot fails chat msg s)).2 = s.2 ∨
       (exState (stepMsg bot fails chat msg s)).2 =
         s.2 ++ [mkSyncEvent chat msg (chat.type == "direct")])) := by
  by_cases h1 : msg.id ∈ s.1
  · left
    exact ⟨h1, by simp [stepMsg, h1, exState]⟩
  · right
    refine ⟨h1, ?_⟩
    by_cases h2 : (chat.type == "direct" || hasMention bot msg) = true
    · by_cases h3 : fails (mkSyncEvent chat msg (chat.type == "direct")) = true
      · exact ⟨by simp [stepMsg, h1, h2, h3, exState], Or.inl (by
          simp [stepMsg, h1, h2, h3, exState])⟩
      · exact ⟨by simp [stepMsg, h1, h2, h3, exState], Or.inr (by
          simp [stepMsg, h1, h2, h3, exState])⟩
    · exact ⟨by simp [stepMsg, h1, h2, exState], Or.inl (by
        simp [stepMsg, h1, h2, exState])⟩

/-- A property preserved by each step of a throwing fold is preserved by the
whole fold, whether or not it was cut short by a throw. -/
theorem foldE_preserve {α : Type} (f : α → PollState → Except PollState PollState)
    (P : PollState → Prop) (hf : ∀ a s, P s → P (exState (f a s))) :
    ∀ (l : List α) (s : PollState), P s → P (exState (foldE f l s)) := by
  intro l
  induction l with
  | nil => intro s hs; exact hs
  | cons a l ih =>
    intro s hs
    have h := hf a s hs
    cases hfa : f a s with
    | ok s' =>
      rw [hfa] at h
      simp only [exState] at h
      simpa only [foldE, hfa] using ih s' h
    | error s' =>
      rw [hfa] at h
      simpa only [foldE, hfa] using h

/-- A property preserved by every message step is preserved across a whole
sequence of poll cycles, including cycles that fail anywhere. -/
theorem runPolls_invariant (bot : String) (fails : SyncEvent → Bool)
    (P : PollState → Prop)
    (hstep : ∀ chat msg s, P s → P (exState (stepMsg bot fails chat msg s))) :
    ∀ (fetches : List (Except String ChatsField)) (s : PollState),
      P s → P (runPolls bot fails fetches s) := by
  have hchat : ∀ chat s, P s → P (exState (stepChat bot fails chat s)) := by
    intro chat s hs
    cases hm : chat.messages with
    | absent => simpa only [stepChat, hm, exState] using hs
    | malformed => simpa only [stepChat, hm, exState] using hs
    | good msgs =>
      simpa only [stepChat, hm] using
        foldE_preserve (stepMsg bot fails chat) P (hstep chat) msgs s hs
  have honce : ∀ f s, P s → P (pollOnce bot fails f s) := by
    intro f s hs
    cases f with
    | error e => simpa only [pollOnce, pollBody, exState] using hs
    | ok cf =>
      cases cf with
      | absent => simpa only [pollOnce, pollBody, exState] using hs
      | malformed => simpa only [pollOnce, pollBody, exState] using hs
      | good chats =>
        simpa only [pollOnce, pollBody] using
          foldE_preserve (stepChat bot fails) P hchat chats s hs
  intro fetches
  induction fetches with
  | nil => intro s hs; exact hs
  | cons f fetches ih =>
    intro s hs
    simpa only [runPolls, List.foldl_cons] using ih (pollOnce bot fails f s) (honce f s hs)

/-- One message step preserves: id `M` was delivered at most once, and if it
was delivered then it is in the seen set. -/
theorem stepMsg_atMostOnce (bot : String) (fails : SyncEvent → Bool) (M : String)
    (chat : Chat) (msg : Message) (s : PollState)
    (h : countId M s.2 ≤ 1 ∧ (1 ≤ countId M s.2 → M ∈ s.1)) :
    countId M (exState (stepMsg bot fails chat msg s)).2 ≤ 1 ∧
      (1 ≤ countId M (exState (stepMsg bot fails chat msg s)).2 →
        M ∈ (exState (stepMsg bot fails chat msg s)).1) := by
  rcases stepMsg_spec bot fails chat msg s with ⟨_, heq⟩ | ⟨hmem, hseen, hevs | hevs⟩
  · rw [heq]; exact h
  · rw [hevs, hseen]
    exact ⟨h.1, fun hc => List.mem_append_left _ (h.2 hc)⟩
  · rw [hevs, hseen, countId_append, countId_singleton, mkSyncEvent_messageId]
    by_cases hM : msg.id = M
    · have h0 : countId M s.2 = 0 := by
        rcases Nat.eq_zero_or_pos (countId M s.2) with h0 | hpos
        · exact h0
        · exact absurd (h.2 hpos) (by rw [← hM]; exact hmem)
      subst hM
      simp [h0]
    · simp only [if_neg hM, Nat.add_zero]
      exact ⟨h.1, fun hc => List.mem_append_left _ (h.2 hc)⟩

/-- One message step preserves: id `M` already in the seen set stays there,
and its delivery count never changes again. -/
theorem stepMsg_frozen (bot : String) (fails : SyncEvent → Bool) (M : String)
    (c : Nat) (chat : Chat) (msg : Message) (s : PollState)
    (h : M ∈ s.1 ∧ countId M s.2 = c) :
    M ∈ (exState (stepMsg bot fails chat msg s)).1 ∧
      countId M (exState (stepMsg bot fails chat msg s)).2 = c := by
  rcases stepMsg_spec bot fails chat msg s with ⟨_, heq⟩ | ⟨hmem, hseen, hevs | hevs⟩
  · rw [heq]; exact h
  · rw [hevs, hseen]; exact ⟨List.mem_append_left _ h.1, h.2⟩
  · have hM : msg.id ≠ M := fun hEq => hmem (by rw [hEq]; exact h.1)
    rw [hevs, hseen, countId_append, countId_singleton, mkSyncEvent_messageId]
    exact ⟨List.mem_append_left _ h.1, by simp [hM, h.2]⟩

/-- One message step preserves duplicate-freeness of the seen set. -/
theorem stepMsg_nodup (bot : String) (fails : SyncEvent → Bool)
    (chat : Chat) (msg : Message) (s : PollState) (h : s.1.Nodup) :
    (exState (stepMsg bot fails chat msg s)).1.Nodup := by
  rcases stepMsg_spec bot fails chat msg s with ⟨_, heq⟩ | ⟨hmem, hseen, _⟩
  · rw [heq]; exact h
  · rw [hseen]
    simp [List.nodup_append, h, hmem]

/-! ### Sample data used by witnesses and counterexamples -/

/-- A message with id "m1" and no mentions. -/
def sampleMsg : Message :=
  { id := "m1", chatId := "c1", content := "hi", senderId := "u1"
    createdAt := "t0", mentions := none }

/-- A direct chat containing `sampleMsg`. -/
def sampleDirectChat : Chat :=
  { id := "c1", type := "direct", messages := .good [sampleMsg] }

/-- A group chat containing `sampleMsg` (which mentions nobody). -/
def sampleGroupChat : Chat :=
  { id := "c2", type := "group", messages := .good [sampleMsg] }

/-- A successful fetch whose snapshot holds only the group chat. -/
def groupFetch : Except String ChatsField :=
  .ok (.good [sampleGroupChat])

/-! ### Claims about the polling/dedup loop -/

/-- C1 (amended). For every sequence of snapshots processed by a single
running loop instance (seen set starts empty), every message id `M` is
delivered to the Event Sink at most once — not exactly once, since a
message that never passes the relevance filter emits zero events; a message
id is added to `SeenSet` at most once per loop lifetime (the seen set stays
duplicate-free); and once an id is present in `SeenSet`, its message is
never emitted again, even if it reappears in a later snapshot. -/
theorem claim_C1_dedup (bot : String) (fails : SyncEvent → Bool)
    (fetches : List (Except String ChatsField)) (M : String) :
    countId M (runPolls bot fails fetches ([], [])).2 ≤ 1 ∧
    (runPolls bot fails fetches ([], [])).1.Nodup ∧
    ∀ (seen : List String) (evs : List SyncEvent), M ∈ seen →
      countId M (runPolls bot fails fetches (seen, evs)).2 = countId M evs := by
  refine ⟨?_, ?_, ?_⟩
  · exact (runPolls_invariant bot fails
      (fun s => countId M s.2 ≤ 1 ∧ (1 ≤ countId M s.2 → M ∈ s.1))
      (stepMsg_atMostOnce bot fails M) fetches ([], [])
      (by constructor <;> simp [countId])).1
  · exact runPolls_invariant bot fails (fun s => s.1.Nodup)
      (stepMsg_nodup bot fails) fetches ([], []) (by simp)
  · intro seen evs hmem
    exact (runPolls_invariant bot fails
      (fun s => M ∈ s.1 ∧ countId M s.2 = countId M evs)
      (stepMsg_frozen bot fails M (countId M evs))
      fetches (seen, evs) ⟨hmem, rfl⟩).2

/-- Witness for C1: with "m1" already seen, a snapshot containing "m1" in a
direct chat delivers nothing new. -/
theorem claim_C1_dedup_witness :
    ("m1" ∈ ["m1"]) ∧
    countId "m1"
      (runPolls "bot" noFail [Except.ok (.good [sampleDirectChat])]
        (["m1"], [])).2 = countId "m1" [] :=
  ⟨by decide,
    (claim_C1_dedup "bot" noFail [Except.ok (.good [sampleDirectChat])] "m1").2.2
      ["m1"] [] (by decide)⟩

/-- C1 as literally stated is false: message id "m1" appears in more than
one snapshot of the sequence, yet zero (not exactly one) SyncEvents are
emitted for it, because it sits in a group chat and mentions nobody. -/
theorem claim_C1_counterexample :
    (([groupFetch, groupFetch].filter (snapshotHasId "m1")).length = 2) ∧
    countId "m1" (runPolls "bot" noFail [groupFetch, groupFetch] ([], [])).2 = 0 := by
  exact ⟨rfl, rfl⟩

/-- C2. A message processed for the first time by the synchronization loop
emits a SyncEvent iff its chat's type equals "direct" or the configured
self identity is among the message's mentions; a message in a group chat
with no mention of self never emits an event. -/
theorem claim_C2_relevance (bot : String) (chat : Chat) (msg : Message)
    (seen : List String) (evs : List SyncEvent) (h : msg.id ∉ seen) :
    (stepMsg bot noFail chat msg (seen, evs) =
      .ok (seen ++ [msg.id],
        if chat.type == "direct" || hasMention bot msg
        then evs ++ [mkSyncEvent chat msg (chat.type == "direct")]
        else evs)) ∧
    ((exState (stepMsg bot noFail chat msg (seen, evs))).2 ≠ evs ↔
      (chat.type == "direct" || hasMention bot msg) = true) ∧
    (chat.type = "group" → hasMention bot msg = false →
      stepMsg bot noFail chat msg (seen, evs) = .ok (seen ++ [msg.id], evs)) := by
  by_cases h2 : (chat.type == "direct" || hasMention bot msg) = true
  · refine ⟨by simp [stepMsg, h, h2, noFail], ?_, ?_⟩
    · rw [show (exState (stepMsg bot noFail chat msg (seen, evs))).2 =
          evs ++ [mkSyncEvent chat msg (chat.type == "direct")] by
          simp [stepMsg, h, h2, noFail, exState]]
      constructor
      · intro _; exact h2
      · intro _ heq
        have := congrArg List.length heq
        simp at this
    · intro hg hm
      rw [hg] at h2
      simp [hm] at h2
  · refine ⟨by simp [stepMsg, h, h2, noFail], ?_, ?_⟩
    · rw [show (exState (stepMsg bot noFail chat msg (seen, evs))).2 = evs by
        simp [stepMsg, h, h2, noFail, exState]]
      simp [h2]
    · intro _ _
      simp [stepMsg, h, h2, noFail]

/-- Witness for C2: the fresh message in a direct chat emits exactly its
SyncEvent. -/
theorem claim_C2_relevance_witness :
    ("m1" ∉ ([] : List String)) ∧
    stepMsg "bot" noFail sampleDirectChat sampleMsg ([], []) =
      .ok (["m1"], [mkSyncEvent sampleDirectChat sampleMsg true]) :=
  ⟨by decide,
    (claim_C2_relevance "bot" sampleDirectChat sampleMsg [] [] (by decide)).1⟩

/-- C8. Within one cycle, a not-yet-seen message's id is inserted into
`SeenSet` strictly before the relevance test and any emission: if the Event
Sink throws on a relevant message, the step ends exceptionally with the id
already recorded and the event NOT delivered; consequently such a message
is never delivered in any later cycle, and overall delivery is at-most-once
even under an adversarially throwing sink. -/
theorem claim_C8_insert_before_emit (bot : String) (fails : SyncEvent → Bool) :
    (∀ (chat : Chat) (msg : Message) (seen : List String) (evs : List SyncEvent),
      msg.id ∉ seen →
      isRelevant bot chat msg = true →
      fails (mkSyncEvent chat msg (chat.type == "direct")) = true →
      stepMsg bot fails chat msg (seen, evs) = .error (seen ++ [msg.id], evs)) ∧
    (∀ (fetches : List (Except String ChatsField)) (M : String)
       (seen : List String) (evs : List SyncEvent), M ∈ seen →
      countId M (runPolls bot fails fetches (seen, evs)).2 = countId M evs) ∧
    (∀ (fetches : List (Except String ChatsField)) (M : String),
      countId M (runPolls bot fails fetches ([], [])).2 ≤ 1) := by
  refine ⟨?_, ?_, ?_⟩
  · intro chat msg seen evs h1 h2 h3
    rw [isRelevant] at h2
    simp [stepMsg, h1, h2, h3]
  · intro fetches M seen evs hmem
    exact (runPolls_invariant bot fails
      (fun s => M ∈ s.1 ∧ countId M s.2 = countId M evs)
      (stepMsg_frozen bot fails M (countId M evs))
      fetches (seen, evs) ⟨hmem, rfl⟩).2
  · intro fetches M
    exact (runPolls_invariant bot fails
      (fun s => countId M s.2 ≤ 1 ∧ (1 ≤ countId M s.2 → M ∈ s.1))
      (stepMsg_atMostOnce bot fails M) fetches ([], [])
      (by constructor <;> simp [countId])).1

/-- Witness for C8: a throwing sink on a fresh relevant message leaves the
id recorded and the event undelivered. -/
theorem claim_C8_insert_before_emit_witness :
    ("m1" ∉ ([] : List String)) ∧
    isRelevant "bot" sampleDirectChat sampleMsg = true ∧
    stepMsg "bot" (fun _ => true) sampleDirectChat sampleMsg ([], []) =
      .error (["m1"], []) :=
  ⟨by decide, rfl,
    (claim_C8_insert_before_emit "bot" (fun _ => true)).1 sampleDirectChat
      sampleMsg [] [] (by decide) rfl rfl⟩

/-- C4 (amended). A failed fetch, an absent `chats` field, and a truthy but
non-iterable `chats` field are each contained within their cycle: the cycle
delivers zero events and leaves `SeenSet` exactly as it was, and the loop
keeps running (the model's `pollOnce` returns normally). A failure thrown
in mid-processing, by contrast, is caught but does not roll back insertions
and emissions already performed earlier in the same cycle (see the
counterexample). -/
theorem claim_C4_cycle_isolation (bot : String) (fails : SyncEvent → Bool)
    (s : PollState) (e : String) :
    pollOnce bot fails (.error e) s = s ∧
    pollOnce bot fails (.ok .absent) s = s ∧
    pollOnce bot fails (.ok .malformed) s = s :=
  ⟨rfl, rfl, rfl⟩

/-- A chat whose `messages` field is truthy but not iterable, so iterating
it throws. -/
def badChat : Chat :=
  { id := "c3", type := "group", messages := .malformed }

/-- C4 as stated is false for failures thrown while processing a malformed
snapshot shape: on a snapshot holding a well-formed direct chat followed by
a chat whose `messages` field is truthy but not iterable, the cycle throws
(and is caught), yet one event was delivered and `SeenSet` grew — the state
after the failed cycle differs from the state before it. -/
theorem claim_C4_counterexample :
    pollBody "bot" noFail (.ok (.good [sampleDirectChat, badChat])) ([], []) =
      .error (["m1"], [mkSyncEvent sampleDirectChat sampleMsg true]) ∧
    pollOnce "bot" noFail (.ok (.good [sampleDirectChat, badChat])) ([], []) ≠
      (([] : List String), ([] : List SyncEvent)) := by
  exact ⟨rfl, by decide⟩

/-! ### Credential loading, lifecycle start and stop -/

/-- Embedding of `path.replace` with a leading-tilde pattern (src/index.ts line 34): replace a
leading tilde by the home directory. -/
def expandTilde (home : String) (path : String) : String :=
  match path.data with
  | '~' :: rest => home ++ String.mk rest
  | _ => path

/-- JavaScript `String.prototype.trim` (src/index.ts line 38): strip
whitespace from both ends. -/
def jsTrim (s : String) : String :=
  String.mk
    (((s.data.dropWhile Char.isWhitespace).reverse.dropWhile
      Char.isWhitespace).reverse)

/-- Embedding of `loadAuthSession` (src/index.ts lines 32-46), over an abstract
filesystem `fs` mapping an expanded path to its content (`none` = file
missing) and the user's home directory, used to expand a leading `~`.
The caught-and-rewrapped error messages of the source are reproduced. -/
def loadAuthSession (home : String) (fs : String → Option String)
    (path : String) : Except String String :=
  let expandedPath := expandTilde home path
  match fs expandedPath with
  | none =>
    .error ("Failed to load auth session: Auth session file not found: " ++ expandedPath)
  | some content =>
    if jsTrim content == "" then
      .error ("Failed to load auth session: Auth session file is empty: " ++ expandedPath)
    else .ok (jsTrim content)

/-- Observable actions of `gateway.start`, in source order. -/
inductive StartAction where
  | logDisabled
  | logStarting
  | loadSession
  | armTimer (intervalMs : Nat)
  | initialPoll
  | storeHandle
  | logStarted
  | logStartFailed (e : String)
deriving Repr, DecidableEq

/-- Embedding of `gateway.start` (src/index.ts lines 203-274) as the ordered trace of its
observable actions paired with its outcome (`.error` is the rethrow on line
272). The trace records the source order: the `!config?.enabled` guard
(lines 204-208), the start log, the credential load (line 213), and — in the
successful case — arming the recurring timer with `setInterval` (line 261)
BEFORE running the initial `await poll()` (line 264) and storing the
interval handle (line 267). -/
def gatewayStart (home : String) (fs : String → Option String)
    (config : Option SupChatConfig) : List StartAction × Except String Unit :=
  match config with
  | none => ([.logDisabled], .ok ())
  | some cfg =>
    if cfg.enabled.getD false = false then ([.logDisabled], .ok ())
    else
      match loadAuthSession home fs cfg.authSessionPath with
      | .error e => ([.logStarting, .loadSession, .logStartFailed e], .error e)
      | .ok _ =>
        ([.logStarting, .loadSession, .armTimer (cfg.pollInterval.getD 5000),
          .initialPoll, .storeHandle, .logStarted], .ok ())

/-- Does a start action arm the recurring timer? -/
def isArmTimer : StartAction → Bool
  | .armTimer _ => true
  | _ => false

/-- Is a start action the immediate initial poll cycle? -/
def isInitialPoll : StartAction → Bool
  | .initialPoll => true
  | _ => false

/-- An enabled configuration used for concrete start scenarios. -/
def cfgEnabled : SupChatConfig :=
  { baseUrl := "https://sup.net", authSessionPath := "/tmp/auth"
    enabled := some true }

/-- A filesystem on which every path holds the token "tok". -/
def fsOk : String → Option String := fun _ => some "tok"

/-- C3 as stated is false: on a successful start, the recurring poll timer
is armed (src/index.ts line 261) strictly before the initial
fetch-and-process cycle runs (line 264), not after it completes. -/
theorem claim_C3_counterexample :
    ¬((gatewayStart "/home/u" fsOk (some cfgEnabled)).1.findIdx isInitialPoll <
      (gatewayStart "/home/u" fsOk (some cfgEnabled)).1.findIdx isArmTimer) ∧
    ((gatewayStart "/home/u" fsOk (some cfgEnabled)).1.findIdx isArmTimer <
      (gatewayStart "/home/u" fsOk (some cfgEnabled)).1.findIdx isInitialPoll) := by
  decide

/-- C3 (amended). When the loop starts with valid configuration and
credential, start succeeds and exactly one immediate fetch-and-process
cycle runs before start returns — but the recurring poll timer is armed
BEFORE that initial cycle runs, not after it completes. -/
theorem claim_C3_start_order (home : String) (fs : String → Option String)
    (cfg : SupChatConfig) (hEn : cfg.enabled.getD false = true) (tok : String)
    (hTok : loadAuthSession home fs cfg.authSessionPath = .ok tok) :
    (gatewayStart home fs (some cfg)).1 =
      [.logStarting, .loadSession, .armTimer (cfg.pollInterval.getD 5000),
       .initialPoll, .storeHandle, .logStarted] ∧
    (gatewayStart home fs (some cfg)).2 = .ok () ∧
    (gatewayStart home fs (some cfg)).1.countP isInitialPoll = 1 ∧
    ((gatewayStart home fs (some cfg)).1.findIdx isArmTimer <
      (gatewayStart home fs (some cfg)).1.findIdx isInitialPoll) := by
  have htrace : (gatewayStart home fs (some cfg)).1 =
      [.logStarting, .loadSession, .armTimer (cfg.pollInterval.getD 5000),
       .initialPoll, .storeHandle, .logStarted] := by
    simp [gatewayStart, hEn, hTok]
  refine ⟨htrace, ?_, ?_, ?_⟩
  · simp [gatewayStart, hEn, hTok]
  · rw [htrace]
    simp [List.countP_cons, isInitialPoll]
  · rw [htrace]
    simp [List.findIdx_cons, isArmTimer, isInitialPoll]

/-- Witness for C3 (amended): a concrete successful start has the stated
trace, with the timer armed at index 2 and the initial poll at index 3. -/
theorem claim_C3_start_order_witness :
    (gatewayStart "/home/u" fsOk (some cfgEnabled)).1 =
      [.logStarting, .loadSession, .armTimer 5000,
       .initialPoll, .storeHandle, .logStarted] :=
  (claim_C3_start_order "/home/u" fsOk cfgEnabled rfl "tok" rfl).1

/-- Observable actions of `gateway.stop`. -/
inductive StopAction where
  | clearTimer (handle : Nat)
  | deleteHandle
  | logStopped
deriving Repr, DecidableEq

/-- Embedding of `gateway.stop` (src/index.ts lines 275-282): the context either holds an
interval handle or not; stop cancels and deletes the handle only when it is
present, and always logs. -/
def gatewayStop (ctx : Option Nat) : Option Nat × List StopAction :=
  match ctx with
  | some h => (none, [.clearTimer h, .deleteHandle, .logStopped])
  | none => (none, [.logStopped])

/-- C9. Calling stop twice in a row produces no error and no duplicate
cleanup side effects: the second stop, on the already-stopped state, cancels
no timer and deletes no stored handle. -/
theorem claim_C9_stop_idempotent (ctx : Option Nat) :
    gatewayStop ((gatewayStop ctx).1) = (none, [StopAction.logStopped]) ∧
    (∀ i, StopAction.clearTimer i ∉ (gatewayStop ((gatewayStop ctx).1)).2) ∧
    StopAction.deleteHandle ∉ (gatewayStop ((gatewayStop ctx).1)).2 := by
  cases ctx <;>
    exact ⟨rfl, fun i => by simp [gatewayStop], by simp [gatewayStop]⟩

/-- Witness for C9: stopping twice from a running state with handle 7. -/
theorem claim_C9_stop_idempotent_witness :
    gatewayStop ((gatewayStop (some 7)).1) = (none, [StopAction.logStopped]) :=
  (claim_C9_stop_idempotent (some 7)).1

/-- A configuration block that leaves `enabled` unset. -/
def cfgDisabled : SupChatConfig :=
  { baseUrl := "https://sup.net", authSessionPath := "/tmp/auth" }

/-- C10. If the channel's configuration block is absent or its enabled flag
is falsy, `gateway.start` returns normally without error, without loading
the credential file, without performing any fetch, and without arming a
timer: a silent no-op (only the "disabled" log) rather than a reported
failure. -/
theorem claim_C10_disabled_start (home : String) (fs : String → Option String) :
    (gatewayStart home fs none = ([.logDisabled], .ok ())) ∧
    (∀ cfg : SupChatConfig, cfg.enabled.getD false = false →
      gatewayStart home fs (some cfg) = ([.logDisabled], .ok ())) ∧
    (∀ cfg : SupChatConfig, cfg.enabled.getD false = false →
      (StartAction.loadSession ∉ (gatewayStart home fs (some cfg)).1 ∧
       StartAction.initialPoll ∉ (gatewayStart home fs (some cfg)).1 ∧
       StartAction.storeHandle ∉ (gatewayStart home fs (some cfg)).1 ∧
       ∀ i, StartAction.armTimer i ∉ (gatewayStart home fs (some cfg)).1)) := by
  refine ⟨rfl, ?_, ?_⟩
  · intro cfg hdis
    simp [gatewayStart, hdis]
  · intro cfg hdis
    refine ⟨?_, ?_, ?_, fun i => ?_⟩ <;> simp [gatewayStart, hdis]

/-- Witness for C10: a config block with `enabled` unset is skipped. -/
theorem claim_C10_disabled_start_witness :
    gatewayStart "/home/u" fsOk (some cfgDisabled) =
      ([StartAction.logDisabled], Except.ok ()) :=
  (claim_C10_disabled_start "/home/u" fsOk).2.1 cfgDisabled rfl

/-! ### Outbound send path -/

/-- The structured result of `sendText`: `{ok: true}` or
`{ok: false, error}`. -/
inductive SendResult where
  | ok
  | err (error : String)
deriving Repr, DecidableEq

/-- Embedding of `sendText` (src/index.ts lines 184-200): the missing-config check, the
credential load, and the submit, all inside one `try`; any thrown error is
caught and turned into `{ok: false, error}`. `netSend` is the outcome of
the HTTP POST that `sendChatMessage` performs through `makeSupRequest`
(`.error e` = the `RequestFailed`/transport error message thrown there). -/
def sendText (home : String) (fs : String → Option String)
    (config : Option SupChatConfig) (netSend : Except String Unit) : SendResult :=
  match config with
  | none => .err "Sup chat not configured"
  | some cfg =>
    match loadAuthSession home fs cfg.authSessionPath with
    | .error e => .err e
    | .ok _ =>
      match netSend with
      | .error e => .err e
      | .ok _ => .ok

/-- C5. For every input, `sendText` never raises: it always returns a
structured result — `{ok: true}` exactly on the all-success path, and every
failure (missing configuration block, credential load failure, request or
transport failure) is captured and returned as `{ok: false, error}` with the
failure's message. -/
theorem claim_C5_sendText_total (home : String) (fs : String → Option String)
    (config : Option SupChatConfig) (netSend : Except String Unit) :
    (sendText home fs config netSend = .ok ∨
      ∃ e, sendText home fs config netSend = .err e) ∧
    (config = none →
      sendText home fs config netSend = .err "Sup chat not configured") ∧
    (∀ cfg e, config = some cfg →
      loadAuthSession home fs cfg.authSessionPath = .error e →
      sendText home fs config netSend = .err e) ∧
    (∀ cfg tok e, config = some cfg →
      loadAuthSession home fs cfg.authSessionPath = .ok tok →
      netSend = .error e →
      sendText home fs config netSend = .err e) ∧
    (∀ cfg tok, config = some cfg →
      loadAuthSession home fs cfg.authSessionPath = .ok tok →
      netSend = .ok () →
      sendText home fs config netSend = .ok) := by
  refine ⟨?_, ?_, ?_, ?_, ?_⟩
  · cases config with
    | none => exact Or.inr ⟨_, rfl⟩
    | some cfg =>
      cases h1 : loadAuthSession home fs cfg.authSessionPath with
      | error e => exact Or.inr ⟨e, by simp [sendText, h1]⟩
      | ok tok =>
        cases netSend with
        | error e => exact Or.inr ⟨e, by simp [sendText, h1]⟩
        | ok u => exact Or.inl (by simp [sendText, h1])
  · rintro rfl; rfl
  · rintro cfg e rfl h; simp [sendText, h]
  · rintro cfg tok e rfl h rfl; simp [sendText, h]
  · rintro cfg tok rfl h rfl; simp [sendText, h]

/-- Witness for C5: the all-success path returns `{ok: true}`. -/
theorem claim_C5_sendText_total_witness :
    sendText "/home/u" fsOk (some cfgEnabled) (.ok ()) = .ok :=
  (claim_C5_sendText_total "/home/u" fsOk (some cfgEnabled) (.ok ())).2.2.2.2
    cfgEnabled "tok" rfl rfl rfl

/-- One text run of the structured document body
(src/index.ts lines 101-105). -/
structure TextNode where
  type : String
  text : String
  marks : List String
deriving Repr, DecidableEq

/-- One paragraph of the structured document body (lines 98-107). -/
structure ParagraphNode where
  type : String
  content : List TextNode
deriving Repr, DecidableEq

/-- The `contentData` document (lines 95-109). -/
structure DocNode where
  type : String
  content : List ParagraphNode
deriving Repr, DecidableEq

/-- The `json` part of the `chatMessage.create` payload (lines 91-115). -/
structure ChatMessageJson where
  optimisticId : String
  chatId : String
  content : String
  contentData : DocNode
  mentions : List String
  attachments : List String
  isGenerated : Bool
  isPostComment : Bool
  visibility : String
deriving Repr, DecidableEq

/-- The `meta` block `{ values: {} }` (lines 116-118). -/
structure PayloadMeta where
  values : List (String × String)
deriving Repr, DecidableEq

/-- The full `chatMessage.create` payload (lines 90-119). -/
structure ChatMessagePayload where
  json : ChatMessageJson
  meta : PayloadMeta
deriving Repr, DecidableEq

/-- Lookup in a JS object built by assigning entries left to right: a later
assignment to the same key overwrites an earlier one. -/
def headerValue (hs : List (String × String)) (k : String) : Option String :=
  hs.foldl (fun acc p => if p.1 == k then some p.2 else acc) none

/-- The default headers of `makeSupRequest` (src/index.ts lines 58-62):
Cookie and Content-Type, then the optional identifying headers, each spread
in only when the configured value is truthy (a non-empty string). -/
def defaultHeaders (config : SupChatConfig) (authSession : String) :
    List (String × String) :=
  [("Cookie", "auth_session=" ++ authSession),
   ("Content-Type", "application/json")]
  ++ (match config.clientVersion with
      | some v => if v == "" then [] else [("x-sup-client-version", v)]
      | none => [])
  ++ (match config.sessionId with
      | some v => if v == "" then [] else [("x-sup-session-id", v)]
      | none => [])

/-- The header object of `makeSupRequest` (lines 58-64): defaults first,
then the caller-supplied headers, later entries overriding earlier ones. -/
def mkHeaders (config : SupChatConfig) (authSession : String)
    (extra : List (String × String)) : List (String × String) :=
  defaultHeaders config authSession ++ extra

/-- A request issued by `makeSupRequest` (lines 51-69): concatenated URL,
method, merged headers, optional JSON body. -/
structure SupRequest where
  url : String
  method : String
  headers : List (String × String)
  body : Option ChatMessagePayload
deriving Repr, DecidableEq

/-- The request `makeSupRequest` issues, before the response is awaited. -/
def makeSupRequestReq (config : SupChatConfig) (authSession : String)
    (endpoint method : String) (extraHeaders : List (String × String))
    (body : Option ChatMessagePayload) : SupRequest :=
  { url := config.baseUrl ++ endpoint
    method := method
    headers := mkHeaders config authSession extraHeaders
    body := body }

/-- The payload built by `sendChatMessage` (src/index.ts lines 90-119). -/
def buildChatMessagePayload (optimisticId chatId text : String)
    (mentions : List String) : ChatMessagePayload :=
  { json :=
      { optimisticId := optimisticId
        chatId := chatId
        content := text
        contentData :=
          { type := "doc"
            content := [{ type := "paragraph"
                          content := [{ type := "text", text := text, marks := [] }] }] }
        mentions := mentions
        attachments := []
        isGenerated := true
        isPostComment := false
        visibility := "public" }
    meta := { values := [] } }

/-- Embedding of `sendChatMessage` (lines 81-125): builds the payload and submits it via
`makeSupRequest` as a POST to the message-creation endpoint with no extra
headers. The generated `optimisticId` (line 88, time-based component plus
random suffix) is a parameter of the embedding. -/
def sendChatMessage (config : SupChatConfig) (authSession : String)
    (optimisticId chatId text : String) (mentions : List String) : SupRequest :=
  makeSupRequestReq config authSession "/api/trpc/chatMessage.create" "POST" []
    (some (buildChatMessagePayload optimisticId chatId text mentions))

/-- C6. For every chatId and text, `sendChatMessage` submits a POST to the
message-creation endpoint whose JSON body satisfies `json.content = text`,
`json.contentData.content[0].content[0].text = text` (a single paragraph
run with empty marks), `json.isGenerated = true`, `json.isPostComment =
false`, and `json.visibility = "public"`. -/
theorem claim_C6_payload_shape (config : SupChatConfig) (authSession : String)
    (optimisticId chatId text : String) (mentions : List String) :
    (sendChatMessage config authSession optimisticId chatId text mentions).method
      = "POST" ∧
    (sendChatMessage config authSession optimisticId chatId text mentions).url
      = config.baseUrl ++ "/api/trpc/chatMessage.create" ∧
    ∃ p, (sendChatMessage config authSession optimisticId chatId text mentions).body
        = some p ∧
      p.json.content = text ∧
      ((p.json.contentData.content.head?.bind
          (fun para => para.content.head?)).map TextNode.text = some text) ∧
      ((p.json.contentData.content.head?.bind
          (fun para => para.content.head?)).map TextNode.marks = some []) ∧
      p.json.contentData.type = "doc" ∧
      p.json.contentData.content.length = 1 ∧
      p.json.isGenerated = true ∧
      p.json.isPostComment = false ∧
      p.json.visibility = "public" :=
  ⟨rfl, rfl, buildChatMessagePayload optimisticId chatId text mentions,
    rfl, rfl, rfl, rfl, rfl, rfl, rfl, rfl, rfl⟩

/-- Folding header assignments starting from any accumulator: the last
matching entry of the list wins, the accumulator survives otherwise. -/
theorem headerValue_foldl (k : String) :
    ∀ (l : List (String × String)) (acc : Option String),
      l.foldl (fun acc p => if p.1 == k then some p.2 else acc) acc =
        match headerValue l k with
        | some v => some v
        | none => acc := by
  intro l
  induction l with
  | nil => intro acc; rfl
  | cons p l ih =>
    intro acc
    have hcons : headerValue (p :: l) k =
        match headerValue l k with
        | some v => some v
        | none => if p.1 == k then some p.2 else none := by
      simp only [headerValue, List.foldl_cons]
      rw [ih]
      rfl
    rw [List.foldl_cons, ih, hcons]
    cases headerValue l k with
    | some v => rfl
    | none =>
      by_cases hpk : (p.1 == k) = true
      · simp [hpk]
      · simp [hpk]

/-- Header lookup across an append: entries of the second list override
entries of the first. -/
theorem headerValue_append (l1 l2 : List (String × String)) (k : String) :
    headerValue (l1 ++ l2) k =
      match headerValue l2 k with
      | some v => some v
      | none => headerValue l1 k := by
  simp only [headerValue, List.foldl_append]
  exact headerValue_foldl k l2 _

/-- An optional identifying-header block never contributes to a different
key. -/
theorem headerValue_optBlock (name k : String) (hne : (name == k) = false)
    (o : Option String) :
    headerValue
      (match o with
       | some v => if v == "" then [] else [(name, v)]
       | none => []) k = none := by
  cases o with
  | none => rfl
  | some v =>
    have hne' : name ≠ k := ne_of_beq_false hne
    by_cases hv0 : (v == "") = true
    · simp [hv0, headerValue]
    · simp [hv0, headerValue, hne']

/-- C7 (amended). In every request built by the Authenticated Request
Client: when `clientVersion` is unset — or set to the empty string, which
the source's truthiness guard treats as unset — the outgoing request
carries no `x-sup-client-version` header (absent a caller-supplied entry
for that key); when set to a non-empty value it carries exactly that value
(absent a caller-supplied override); the `Cookie` header equals
`auth_session=<loaded token>` (absent a caller-supplied override); and
caller-supplied headers take precedence over the defaults on conflicting
keys. -/
theorem claim_C7_headers (config : SupChatConfig) (authSession : String)
    (extra : List (String × String)) :
    (config.clientVersion = none →
      headerValue extra "x-sup-client-version" = none →
      headerValue (mkHeaders config authSession extra) "x-sup-client-version"
        = none) ∧
    (∀ v, config.clientVersion = some v → v ≠ "" →
      headerValue extra "x-sup-client-version" = none →
      headerValue (mkHeaders config authSession extra) "x-sup-client-version"
        = some v) ∧
    (headerValue extra "Cookie" = none →
      headerValue (mkHeaders config authSession extra) "Cookie"
        = some ("auth_session=" ++ authSession)) ∧
    (∀ k v, headerValue extra k = some v →
      headerValue (mkHeaders config authSession extra) k = some v) := by
  have hsid : ∀ k, ("x-sup-session-id" == k) = false →
      headerValue
        (match config.sessionId with
         | some v => if v == "" then [] else [("x-sup-session-id", v)]
         | none => []) k = none :=
    fun k h => headerValue_optBlock "x-sup-session-id" k h config.sessionId
  refine ⟨?_, ?_, ?_, ?_⟩
  · intro hcv hex
    rw [mkHeaders, headerValue_append, hex, defaultHeaders, hcv,
      headerValue_append, hsid "x-sup-client-version" rfl,
      headerValue_append]
    rfl
  · intro v hcv hv0 hex
    have hbeq : (v == "") = false := by
      cases h : v == "" with
      | false => rfl
      | true => exact absurd (eq_of_beq h) hv0
    rw [mkHeaders, headerValue_append, hex, defaultHeaders, hcv,
      headerValue_append, hsid "x-sup-client-version" rfl,
      headerValue_append]
    simp [headerValue, hbeq]
  · intro hex
    rw [mkHeaders, headerValue_append, hex, defaultHeaders,
      headerValue_append, hsid "Cookie" rfl, headerValue_append,
      headerValue_optBlock "x-sup-client-version" "Cookie" rfl
        config.clientVersion]
    rfl
  · intro k v hex
    rw [mkHeaders, headerValue_append, hex]

/-- Witness for C7 (amended): with `clientVersion` unset and no caller
headers, the client-version header is absent while the Cookie header holds
the loaded token. -/
theorem claim_C7_headers_witness :
    headerValue (mkHeaders cfgEnabled "tok" []) "x-sup-client-version" = none ∧
    headerValue (mkHeaders cfgEnabled "tok" []) "Cookie" = some "auth_session=tok" :=
  ⟨(claim_C7_headers cfgEnabled "tok" []).1 rfl rfl,
    (claim_C7_headers cfgEnabled "tok" []).2.2.1 rfl⟩

/-- A configuration whose `clientVersion` is set to the empty string. -/
def cfgEmptyCV : SupChatConfig :=
  { baseUrl := "https://sup.net", authSessionPath := "/tmp/auth"
    clientVersion := some "" }

/-- C7 as literally stated is false on one point: a `clientVersion` that is
set but empty is falsy in the source's spread guard, so the request carries
no `x-sup-client-version` header even though the value is set. -/
theorem claim_C7_counterexample :
    cfgEmptyCV.clientVersion = some "" ∧
    headerValue (mkHeaders cfgEmptyCV "tok" []) "x-sup-client-version" = none :=
  ⟨rfl, rfl⟩

end SupChat
